import Mathlib

/-!
Shallow embedding of the points-and-inventory economy engine of the
INSTA_UNC Telegram bot (src/models.py, src/admin.py, src/original_bot.py).

The relational store (database.py, tables igv_users / igv_accounts /
igv_redemptions / igv_reports) is modelled as a record of lists of rows;
each SQL statement executed by the Python code becomes a pure list
transformation, and each Python function becomes a Lean function threading
the database state explicitly.  Timestamps are integers (seconds).
-/

namespace InstaVault

/-- A row of the `igv_users` table (database.py: user_id, username, points,
vip, referrals, last_daily, ref_by — the order `SELECT *` returns). -/
structure UserRow where
  user_id : Nat
  username : String
  points : Int
  vip : Bool
  referrals : Nat
  last_daily : Option Int
  ref_by : Option Nat
deriving DecidableEq

/-- A row of the `igv_accounts` table (id SERIAL, account_info, type). -/
structure AccountRow where
  id : Nat
  account_info : String
  type : String
deriving DecidableEq

/-- A row of the `igv_redemptions` table (user_id, account). -/
structure RedemptionRow where
  user_id : Nat
  account : String
deriving DecidableEq

/-- A row of the `igv_reports` table (id, user_id, account, reason, status). -/
structure ReportRow where
  id : Nat
  user_id : Nat
  account : String
  reason : String
  status : String
deriving DecidableEq

/-- The whole database state. -/
structure DB where
  igv_users : List UserRow
  igv_accounts : List AccountRow
  igv_redemptions : List RedemptionRow
  igv_reports : List ReportRow
deriving DecidableEq

/-- `SELECT * FROM igv_users WHERE user_id = %s` (User.get_user). -/
def findUser (db : DB) (uid : Nat) : Option UserRow :=
  db.igv_users.find? (fun u => u.user_id == uid)

/-- Points of a user, read back from the table. -/
def userPoints (db : DB) (uid : Nat) : Option Int :=
  (findUser db uid).map (fun u => u.points)

/-- Status of a report, read back from the table. -/
def reportStatus (db : DB) (rid : Nat) : Option String :=
  (db.igv_reports.find? (fun r => r.id == rid)).map (fun r => r.status)

/-- models.py User.update_points: `UPDATE igv_users SET points = points + %s
WHERE user_id = %s`.  Returns True on success. -/
def update_points (db : DB) (uid : Nat) (delta : Int) : Bool × DB :=
  let users := db.igv_users.map (fun u =>
    if u.user_id == uid then { u with points := u.points + delta } else u)
  (true, { db with igv_users := users })

/-- models.py User.add_referral: three sequential UPDATE statements —
increment `referrals`, add 3 `points`, then set `vip = TRUE` where
`referrals + 1 >= 20 AND vip = FALSE` (the referral count at that point is
the already-incremented value). -/
def add_referral (db : DB) (uid : Nat) : Bool × DB :=
  let users1 := db.igv_users.map (fun u =>
    if u.user_id == uid then { u with referrals := u.referrals + 1 } else u)
  let users2 := users1.map (fun u =>
    if u.user_id == uid then { u with points := u.points + 3 } else u)
  let users3 := users2.map (fun u =>
    if u.user_id == uid && decide (20 ≤ u.referrals + 1) && !u.vip
    then { u with vip := true } else u)
  (true, { db with igv_users := users3 })

/-- models.py User.create_user: skip if the user already exists, insert a
fresh row (0 points, not VIP, 0 referrals), then
`if ref_by and ref_by != user_id: User.add_referral(ref_by)` — note the
Python truthiness test: a referrer id of 0 is falsy and is skipped. -/
def create_user (db : DB) (uid : Nat) (uname : String) (ref_by : Option Nat) :
    Bool × DB :=
  if db.igv_users.any (fun u => u.user_id == uid) then (false, db)
  else
    let newRow : UserRow :=
      { user_id := uid, username := uname, points := 0, vip := false,
        referrals := 0, last_daily := none, ref_by := ref_by }
    let db1 := { db with igv_users := db.igv_users ++ [newRow] }
    match ref_by with
    | some r => if r ≠ 0 ∧ r ≠ uid then (true, (add_referral db1 r).2)
                else (true, db1)
    | none => (true, db1)

/-- models.py User.can_claim_daily: true when the user row is absent or
`last_daily` is NULL, else true iff at least 24h (86400 s) elapsed. -/
def can_claim_daily (db : DB) (uid : Nat) (now : Int) : Bool :=
  match findUser db uid with
  | none => true
  | some u =>
    match u.last_daily with
    | none => true
    | some t => decide (86400 ≤ now - t)

/-- models.py User.claim_daily_reward: looks up `vip` (returning bare False
— modelled `none` — when the user row is absent), then unconditionally
credits +4 (VIP) or +2 and stamps `last_daily = CURRENT_TIMESTAMP`.  It
performs no eligibility check of its own. -/
def claim_daily_reward (db : DB) (uid : Nat) (now : Int) :
    Option (Bool × Int) × DB :=
  match findUser db uid with
  | none => (none, db)
  | some u =>
    let pts : Int := if u.vip then 4 else 2
    let users := db.igv_users.map (fun w =>
      if w.user_id == uid
      then { w with points := w.points + pts, last_daily := some now }
      else w)
    (some (true, pts), { db with igv_users := users })

/-- Outcome of the daily-claim callback visible to the user. -/
inductive DailyOutcome
  | blocked
  | claimed (pts : Int)
  | errored
deriving DecidableEq

/-- original_bot.py callback_daily_reward: gate on `can_claim_daily`, then
call `claim_daily_reward`. -/
def callback_daily_reward (db : DB) (uid : Nat) (now : Int) :
    DailyOutcome × DB :=
  if can_claim_daily db uid now = false then (.blocked, db)
  else
    match claim_daily_reward db uid now with
    | (some (true, p), d) => (.claimed p, d)
    | (some (false, _), d) => (.errored, d)
    | (none, d) => (.errored, d)

/-- models.py Account.get_account: for a VIP caller prefer the first
`premium` row, else fall back to the first row of any type; for a non-VIP
caller prefer the first `standard` row, else fall back to the first row of
any type; `(None, None)` — here `none` — when the table is empty.  The
function runs only SELECT statements: it does not modify the table. -/
def get_account (db : DB) (vip : Bool) : Option (Nat × String) :=
  let pref := if vip then "premium" else "standard"
  match db.igv_accounts.find? (fun r => r.type == pref) with
  | some r => some (r.id, r.account_info)
  | none =>
    match db.igv_accounts.head? with
    | some r => some (r.id, r.account_info)
    | none => none

/-- models.py Account.remove_account: `DELETE FROM igv_accounts WHERE id = %s`. -/
def remove_account (db : DB) (aid : Nat) : Bool × DB :=
  let accounts := db.igv_accounts.filter (fun r => !(r.id == aid))
  (true, { db with igv_accounts := accounts })

/-- models.py Redemption.record_redemption: INSERT into igv_redemptions. -/
def record_redemption (db : DB) (uid : Nat) (acct : String) : Bool × DB :=
  (true, { db with igv_redemptions := db.igv_redemptions ++ [⟨uid, acct⟩] })

/-- Result of the redeem callback visible to the user. -/
inductive RedeemResult
  | userNotFound
  | insufficientPoints (cost : Int)
  | outOfStock
  | redeemed (info : String) (cost : Int)
deriving DecidableEq

/-- original_bot.py callback_redeem_account: load the user, compute
`redemption_cost = 10 if is_vip else 15`, refuse when `points < cost`
(no mutation), call `Account.get_account(is_vip)`, refuse when
`not account_id or not account_info` (Python truthiness: id 0 or empty
payload count as "no account"), else debit the cost, delete the allocated
row and record the redemption. -/
def callback_redeem_account (db : DB) (uid : Nat) : RedeemResult × DB :=
  match findUser db uid with
  | none => (.userNotFound, db)
  | some u =>
    let cost : Int := if u.vip then 10 else 15
    if u.points < cost then (.insufficientPoints cost, db)
    else
      match get_account db u.vip with
      | none => (.outOfStock, db)
      | some (aid, info) =>
        if aid = 0 ∨ info = "" then (.outOfStock, db)
        else
          let d1 := (update_points db uid (-cost)).2
          let d2 := (remove_account d1 aid).2
          let d3 := (record_redemption d2 uid info).2
          (.redeemed info cost, d3)

/-- models.py Report.approve_report: read the `vip` flag of the reporter
(return False, touching nothing, when the user row is absent), compute the refund
`10 if is_vip else 15`, set the report status to `approved`
unconditionally — there is no check of the current status — and credit the
refund.  The redemption log is never consulted. -/
def approve_report (db : DB) (report_id : Nat) (uid : Nat) : Bool × DB :=
  match findUser db uid with
  | none => (false, db)
  | some u =>
    let refund : Int := if u.vip then 10 else 15
    let reports := db.igv_reports.map (fun r =>
      if r.id == report_id then { r with status := "approved" } else r)
    let d1 := { db with igv_reports := reports }
    let d2 := (update_points d1 uid refund).2
    (true, d2)

/-- models.py Report.reject_report: set the status to `rejected`
unconditionally; no balance change. -/
def reject_report (db : DB) (report_id : Nat) : Bool × DB :=
  let reports := db.igv_reports.map (fun r =>
    if r.id == report_id then { r with status := "rejected" } else r)
  (true, { db with igv_reports := reports })

/-! ### Concrete database states used as test inputs -/

/-- A report whose reporter has no user row. -/
def dbC10 : DB :=
  { igv_users := [],
    igv_accounts := [],
    igv_redemptions := [],
    igv_reports := [{ id := 1, user_id := 9, account := "acc", reason := "Other Issue", status := "pending" }] }

/-- A non-VIP user with 5 points, below the standard cost of 15. -/
def dbC3 : DB :=
  { igv_users := [{ user_id := 1, username := "u", points := 5, vip := false, referrals := 0, last_daily := none, ref_by := none }],
    igv_accounts := [],
    igv_redemptions := [],
    igv_reports := [] }

/-- A non-VIP user with 18 referrals, one referral short of 19. -/
def dbC2 : DB :=
  { igv_users := [{ user_id := 1, username := "u", points := 0, vip := false, referrals := 18, last_daily := none, ref_by := none }],
    igv_accounts := [],
    igv_redemptions := [],
    igv_reports := [] }

/-- A non-VIP user with enough points and an empty inventory pool. -/
def dbC4 : DB :=
  { igv_users := [{ user_id := 1, username := "u", points := 20, vip := false, referrals := 0, last_daily := none, ref_by := none }],
    igv_accounts := [],
    igv_redemptions := [],
    igv_reports := [] }

/-- A single standard item in the pool and no users. -/
def dbC5 : DB :=
  { igv_users := [],
    igv_accounts := [{ id := 1, account_info := "acct", type := "standard" }],
    igv_redemptions := [],
    igv_reports := [] }

/-- A non-VIP user with 20 points and two standard items in the pool. -/
def dbC5w : DB :=
  { igv_users := [{ user_id := 1, username := "u", points := 20, vip := false, referrals := 0, last_daily := none, ref_by := none }],
    igv_accounts := [{ id := 2, account_info := "s", type := "standard" },
                     { id := 3, account_info := "t", type := "standard" }],
    igv_redemptions := [],
    igv_reports := [] }

/-- One premium item, zero standard items (the fallback scenario). -/
def dbC6 : DB :=
  { igv_users := [],
    igv_accounts := [{ id := 1, account_info := "p", type := "premium" }],
    igv_redemptions := [],
    igv_reports := [] }

/-- A non-VIP user who has never claimed the daily reward. -/
def dbC7 : DB :=
  { igv_users := [{ user_id := 1, username := "u", points := 0, vip := false, referrals := 0, last_daily := none, ref_by := none }],
    igv_accounts := [],
    igv_redemptions := [],
    igv_reports := [] }

/-- A VIP user with 1 point and a pending report, plus a redemption log
entry that the refund computation never reads. -/
def dbC8 : DB :=
  { igv_users := [{ user_id := 2, username := "v", points := 1, vip := true, referrals := 25, last_daily := none, ref_by := none }],
    igv_accounts := [],
    igv_redemptions := [{ user_id := 2, account := "old" }],
    igv_reports := [{ id := 4, user_id := 2, account := "old", reason := "Account Locked", status := "pending" }] }

/-- A user whose identifier is 0, referenced as referrer by a new signup. -/
def dbC9 : DB :=
  { igv_users := [{ user_id := 0, username := "z", points := 7, vip := false, referrals := 5, last_daily := none, ref_by := none }],
    igv_accounts := [],
    igv_redemptions := [],
    igv_reports := [] }

/-- An ordinary referrer with identifier 3. -/
def dbC9w : DB :=
  { igv_users := [{ user_id := 3, username := "r", points := 0, vip := false, referrals := 0, last_daily := none, ref_by := none }],
    igv_accounts := [],
    igv_redemptions := [],
    igv_reports := [] }

/-- A non-VIP reporter and a report that was already rejected. -/
def dbC1 : DB :=
  { igv_users := [{ user_id := 7, username := "u", points := 0, vip := false, referrals := 0, last_daily := none, ref_by := none }],
    igv_accounts := [],
    igv_redemptions := [],
    igv_reports := [{ id := 1, user_id := 7, account := "acc", reason := "Password Changed", status := "rejected" }] }

/-- A non-VIP reporter and a pending report. -/
def dbC1w : DB :=
  { igv_users := [{ user_id := 7, username := "u", points := 0, vip := false, referrals := 0, last_daily := none, ref_by := none }],
    igv_accounts := [],
    igv_redemptions := [],
    igv_reports := [{ id := 1, user_id := 7, account := "acc", reason := "Password Changed", status := "pending" }] }

/-! ### Generic list lemmas -/

/-- `find?` commutes with a `map` that leaves the search predicate
unchanged on every element. -/
lemma find?_map_eq {α : Type} (p : α → Bool) (F : α → α)
    (h : ∀ a, p (F a) = p a) :
    ∀ l : List α, (l.map F).find? p = (l.find? p).map F := by
  intro l
  induction l with
  | nil => rfl
  | cons a l ih =>
    by_cases hp : p a = true
    · rw [List.map_cons, List.find?_cons_of_pos _ (by rw [h a]; exact hp),
        List.find?_cons_of_pos _ hp]
      rfl
    · rw [List.map_cons, List.find?_cons_of_neg _ (by rw [h a]; simpa using hp),
        List.find?_cons_of_neg _ (by simpa using hp), ih]

/-- The successful form of `find?_map_eq`. -/
lemma find?_map_some {α : Type} (p : α → Bool) (F : α → α)
    (hpres : ∀ a, p (F a) = p a) (l : List α) (a : α)
    (h : l.find? p = some a) :
    (l.map F).find? p = some (F a) := by
  rw [find?_map_eq p F hpres l, h]
  rfl

/-- `find?` over an append when the left part already finds a hit. -/
lemma find?_append_some {α : Type} {p : α → Bool} {l1 : List α} (l2 : List α)
    {a : α} (h : l1.find? p = some a) : (l1 ++ l2).find? p = some a := by
  induction l1 with
  | nil => simp at h
  | cons b l1 ih =>
    by_cases hp : p b = true
    · rw [List.find?_cons_of_pos _ hp] at h
      rw [List.cons_append, List.find?_cons_of_pos _ hp]
      exact h
    · rw [List.find?_cons_of_neg _ (by simpa using hp)] at h
      rw [List.cons_append, List.find?_cons_of_neg _ (by simpa using hp)]
      exact ih h

/-! ### State lemmas about the embedded operations -/

/-- After `update_points`, the looked-up row of the updated user carries the
adjusted balance. -/
lemma findUser_update_points (db : DB) (uid : Nat) (d : Int) (u : UserRow)
    (h : findUser db uid = some u) :
    findUser (update_points db uid d).2 uid =
      some { u with points := u.points + d } := by
  have h0 : db.igv_users.find? (fun w => w.user_id == uid) = some u := h
  have hp : (u.user_id == uid) = true := by simpa using List.find?_some h0
  have h1 := find?_map_some (fun w => w.user_id == uid)
    (fun w => if w.user_id == uid then { w with points := w.points + d } else w)
    (fun a => by by_cases hg : (a.user_id == uid) = true <;> simp [hg])
    db.igv_users u h0
  simp only [hp, if_true] at h1
  exact h1

/-- After `claim_daily_reward` on an existing user, the row of the claiming
user carries the reward and the fresh `last_daily` stamp. -/
lemma findUser_claim_daily_reward (db : DB) (uid : Nat) (now : Int) (u : UserRow)
    (h : findUser db uid = some u) :
    findUser (claim_daily_reward db uid now).2 uid =
      some { u with points := u.points + (if u.vip then 4 else 2), last_daily := some now } := by
  have h0 : db.igv_users.find? (fun w => w.user_id == uid) = some u := h
  have hp : (u.user_id == uid) = true := by simpa using List.find?_some h0
  have h1 := find?_map_some (fun w => w.user_id == uid)
    (fun w => if w.user_id == uid
      then { w with points := w.points + (if u.vip then 4 else 2), last_daily := some now }
      else w)
    (fun a => by by_cases hg : (a.user_id == uid) = true <;> simp [hg])
    db.igv_users u h0
  simp only [hp, if_true] at h1
  unfold claim_daily_reward
  rw [h]
  exact h1

/-- After `add_referral`, the row of the referrer carries one more referral,
three more points, and the VIP flag as computed by the (off-by-one) SQL
check `referrals + 1 >= 20` evaluated on the already-incremented count. -/
lemma findUser_add_referral (db : DB) (uid : Nat) (u : UserRow)
    (h : findUser db uid = some u) :
    findUser (add_referral db uid).2 uid =
      some { u with referrals := u.referrals + 1, points := u.points + 3, vip := u.vip || decide (20 ≤ u.referrals + 2) } := by
  have h0 : db.igv_users.find? (fun w => w.user_id == uid) = some u := h
  have hp : (u.user_id == uid) = true := by simpa using List.find?_some h0
  have h1 := find?_map_some (fun w => w.user_id == uid)
    (fun w => if w.user_id == uid then { w with referrals := w.referrals + 1 } else w)
    (fun a => by by_cases hg : (a.user_id == uid) = true <;> simp [hg])
    db.igv_users u h0
  simp only [hp, if_true] at h1
  have h2 := find?_map_some (fun (w : UserRow) => w.user_id == uid)
    (fun (w : UserRow) => if w.user_id == uid then { w with points := w.points + 3 } else w)
    (fun (a : UserRow) => by by_cases hg : (a.user_id == uid) = true <;> simp [hg])
    _ _ h1
  simp only [hp, if_true] at h2
  have h3 := find?_map_some (fun w => w.user_id == uid)
    (fun (w : UserRow) => if w.user_id == uid && decide (20 ≤ w.referrals + 1) && !w.vip
      then { w with vip := true } else w)
    (fun (a : UserRow) => by
      dsimp only
      by_cases hc : (a.user_id == uid && decide (20 ≤ a.referrals + 1) && !a.vip) = true
      · rw [if_pos hc]
      · rw [if_neg hc])
    _ _ h2
  refine Eq.trans (show findUser (add_referral db uid).2 uid = _ from h3) ?_
  by_cases hv : u.vip = true
  · simp [hp, hv]
  · by_cases hr : 20 ≤ u.referrals + 1 + 1
    · simp [hp, hv, hr]
    · simp [hp, hv, hr]

/-- Setting a report status via the conditional map touches exactly the
matched report. -/
lemma reportStatus_map_set (l : List ReportRow) (rid : Nat) (s : String)
    (r : ReportRow) (h : l.find? (fun x => x.id == rid) = some r) :
    (l.map (fun x => if x.id == rid then { x with status := s } else x)).find?
      (fun x => x.id == rid) = some { r with status := s } := by
  have hp : (r.id == rid) = true := by simpa using List.find?_some h
  have h1 := find?_map_some (fun x => x.id == rid)
    (fun x => if x.id == rid then { x with status := s } else x)
    (fun a => by by_cases hg : (a.id == rid) = true <;> simp [hg]) l r h
  simp only [hp, if_true] at h1
  exact h1

/-- Any allocation returned by `get_account` is a row of the pool. -/
lemma get_account_mem (db : DB) (v : Bool) (a : Nat) (i : String)
    (h : get_account db v = some (a, i)) :
    ∃ row ∈ db.igv_accounts, row.id = a ∧ row.account_info = i := by
  simp only [get_account] at h
  rcases hf : db.igv_accounts.find?
      (fun r => r.type == (if v then "premium" else "standard")) with _ | r
  · rw [hf] at h
    rcases hh : db.igv_accounts.head? with _ | r
    · rw [hh] at h
      cases h
    · rw [hh] at h
      simp only [Option.some.injEq, Prod.mk.injEq] at h
      exact ⟨r, List.mem_of_mem_head? (by simp [hh]), h.1, h.2⟩
  · rw [hf] at h
    simp only [Option.some.injEq, Prod.mk.injEq] at h
    exact ⟨r, List.mem_of_find?_eq_some hf, h.1, h.2⟩

/-- `get_account` answers "no item available" exactly on the empty pool. -/
lemma get_account_eq_none_iff (db : DB) (v : Bool) :
    get_account db v = none ↔ db.igv_accounts = [] := by
  constructor
  · intro h
    simp only [get_account] at h
    rcases hf : db.igv_accounts.find?
        (fun r => r.type == (if v then "premium" else "standard")) with _ | r
    · rw [hf] at h
      rcases hh : db.igv_accounts.head? with _ | r
      · exact List.head?_eq_none_iff.mp hh
      · rw [hh] at h
        cases h
    · rw [hf] at h
      cases h
  · intro h
    simp [get_account, h]

/-- When the pool holds a row of the preferred tier, `get_account` returns
a row of that tier. -/
lemma get_account_pref (db : DB) (v : Bool) (r0 : AccountRow)
    (hmem : r0 ∈ db.igv_accounts)
    (htype : r0.type = (if v then "premium" else "standard")) :
    ∃ row ∈ db.igv_accounts, get_account db v = some (row.id, row.account_info) ∧
      row.type = (if v then "premium" else "standard") := by
  rcases hf : db.igv_accounts.find?
      (fun r => r.type == (if v then "premium" else "standard")) with _ | r
  · exfalso
    have := List.find?_eq_none.mp hf r0 hmem
    simp [htype] at this
  · refine ⟨r, List.mem_of_find?_eq_some hf, ?_, ?_⟩
    · simp only [get_account, hf]
    · have := List.find?_some hf
      simpa using this

/-- `update_points` adjusts the balance of the targeted user by the delta. -/
lemma userPoints_update_points (db : DB) (uid : Nat) (d : Int) (u : UserRow)
    (h : findUser db uid = some u) :
    userPoints (update_points db uid d).2 uid = some (u.points + d) := by
  simp [userPoints, findUser_update_points db uid d u h]

/-- `approve_report` on an existing reporter always succeeds and credits
the reporter by 10 (VIP) or 15 (non-VIP) — with no look at the status. -/
lemma approve_report_spec (db : DB) (rid uid : Nat) (u : UserRow)
    (h : findUser db uid = some u) :
    (approve_report db rid uid).1 = true ∧
    userPoints (approve_report db rid uid).2 uid =
      some (u.points + (if u.vip then 10 else 15)) := by
  constructor
  · simp only [approve_report, h]
  · simp only [approve_report, h]
    exact userPoints_update_points _ uid _ u h

/-! ### Claim C10 -/

/-- Claim C10: if `approve_report` is invoked with a user identifier for
which no account row exists, it returns failure and performs no mutation at
all — the report stays pending and no balance changes. -/
theorem approve_missing_user_no_mutation (db : DB) (rid uid : Nat)
    (h : findUser db uid = none) :
    approve_report db rid uid = (false, db) := by
  simp only [approve_report, h]

/-- Witness for C10: approving a report whose reporter has no user row
fails and leaves the database untouched. -/
theorem approve_missing_user_no_mutation_witness :
    approve_report dbC10 1 9 = (false, dbC10) :=
  approve_missing_user_no_mutation dbC10 1 9 (by decide)

/-! ### Claim C3 -/

/-- Claim C3: for every existing account, redeem computes the cost as 10
for a VIP and 15 otherwise, and when the balance is strictly below that
cost it fails with the insufficient-points outcome and mutates no state. -/
theorem redeem_insufficient_points_no_mutation (db : DB) (uid : Nat) (u : UserRow)
    (h : findUser db uid = some u)
    (hlt : u.points < (if u.vip then (10 : Int) else 15)) :
    callback_redeem_account db uid =
      (.insufficientPoints (if u.vip then (10 : Int) else 15), db) := by
  simp only [callback_redeem_account, h]
  rw [if_pos hlt]

/-- Witness for C3: a non-VIP user with 5 points is refused at cost 15 and
the database is unchanged. -/
theorem redeem_insufficient_points_no_mutation_witness :
    callback_redeem_account dbC3 1 = (.insufficientPoints 15, dbC3) := by
  have := redeem_insufficient_points_no_mutation dbC3 1
    { user_id := 1, username := "u", points := 5, vip := false, referrals := 0, last_daily := none, ref_by := none }
    (by decide) (by decide)
  simpa using this

/-! ### Claim C2 -/

/-- Claim C2 (code bug): `add_referral` increments the referral count and
then runs the SQL `UPDATE ... WHERE referrals + 1 >= 20`, so an account
whose post-increment referral count is only 19 is promoted to VIP — against
both the claim and the code comment "(20+ referrals)".  Concretely, a
non-VIP user with 18 referrals gains VIP from a single referral. -/
theorem vip_promotion_off_by_one :
    (add_referral dbC2 1).1 = true ∧
    findUser (add_referral dbC2 1).2 1 =
      some { user_id := 1, username := "u", points := 3, vip := true, referrals := 19, last_daily := none, ref_by := none } := by
  decide

/-! ### Claim C8 -/

/-- Claim C8: the refund credited when a report is approved equals 10 if
the reporting account is VIP at the moment of approval and 15 otherwise,
computed from the current VIP flag and the fixed cost table — the
redemption log (hence the amount actually paid) is never read, so the
refund is invariant under replacing the whole log. -/
theorem approve_refund_from_current_vip (db : DB) (rid uid : Nat) (u : UserRow)
    (h : findUser db uid = some u) :
    (approve_report db rid uid).1 = true ∧
    userPoints (approve_report db rid uid).2 uid =
      some (u.points + (if u.vip then 10 else 15)) ∧
    ∀ R, userPoints (approve_report { db with igv_redemptions := R } rid uid).2 uid =
      some (u.points + (if u.vip then 10 else 15)) := by
  refine ⟨(approve_report_spec db rid uid u h).1,
    (approve_report_spec db rid uid u h).2, ?_⟩
  intro R
  exact (approve_report_spec { db with igv_redemptions := R } rid uid u h).2

/-- Witness for C8: the VIP reporter with 1 point ends at 11 points after
approval, refunded 10 by the cost table despite the logged redemption. -/
theorem approve_refund_from_current_vip_witness :
    userPoints (approve_report dbC8 4 2).2 2 = some 11 := by
  have := (approve_refund_from_current_vip dbC8 4 2
    { user_id := 2, username := "v", points := 1, vip := true, referrals := 25, last_daily := none, ref_by := none }
    (by decide)).2.1
  simpa using this

/-! ### Claim C1 -/

/-- Counterexample for C1: the report in `dbC1` is already rejected, yet
`approve_report` succeeds, flips the status to approved and credits the
reporter — there is no pending check and no AlreadyDecided failure. -/
theorem approve_on_decided_report_counterexample :
    reportStatus dbC1 1 = some "rejected" ∧
    (approve_report dbC1 1 7).1 = true ∧
    reportStatus (approve_report dbC1 1 7).2 1 = some "approved" ∧
    userPoints (approve_report dbC1 1 7).2 7 = some 15 := by
  decide

/-- Claim C1 as amended: `approve_report` succeeds and credits the refund
whenever the reporter exists, regardless of the current report status, and
`reject_report` always succeeds and never touches balances; hence in an
approve/reject sequence in either order the second call also succeeds
(nothing fails AlreadyDecided) and the balance is credited exactly once —
by the approve call alone. -/
theorem approve_unconditional_and_single_credit (db : DB) (rid uid : Nat) (u : UserRow)
    (h : findUser db uid = some u) :
    (approve_report db rid uid).1 = true ∧
    (reject_report (approve_report db rid uid).2 rid).1 = true ∧
    userPoints (reject_report (approve_report db rid uid).2 rid).2 uid =
      some (u.points + (if u.vip then 10 else 15)) ∧
    (reject_report db rid).1 = true ∧
    (approve_report (reject_report db rid).2 rid uid).1 = true ∧
    userPoints (approve_report (reject_report db rid).2 rid uid).2 uid =
      some (u.points + (if u.vip then 10 else 15)) := by
  have hA := approve_report_spec db rid uid u h
  have huser : findUser (reject_report db rid).2 uid = some u := h
  have hA2 := approve_report_spec (reject_report db rid).2 rid uid u huser
  exact ⟨hA.1, rfl, hA.2, rfl, hA2.1, hA2.2⟩

/-- Witness for C1: on a pending report, approve-then-reject both succeed
and leave the reporter credited exactly once (0 + 15 points). -/
theorem approve_unconditional_and_single_credit_witness :
    userPoints (reject_report (approve_report dbC1w 1 7).2 1).2 7 = some 15 := by
  have := (approve_unconditional_and_single_credit dbC1w 1 7
    { user_id := 7, username := "u", points := 0, vip := false, referrals := 0, last_daily := none, ref_by := none }
    (by decide)).2.2.1
  simpa using this

/-! ### Claim C4 -/

/-- Claim C4: with sufficient balance, when the allocation step returns no
item the redeem callback fails with the out-of-stock outcome and the
database — in particular the point balance — is unchanged; more generally
the callback mutates no state unless it returns a redeemed item, so a debit
never happens without a successfully allocated item. -/
theorem redeem_out_of_stock_no_debit (db : DB) (uid : Nat) :
    (∀ u, findUser db uid = some u →
      ¬ u.points < (if u.vip then (10 : Int) else 15) →
      get_account db u.vip = none →
      callback_redeem_account db uid = (.outOfStock, db)) ∧
    ((callback_redeem_account db uid).2 = db ∨
      ∃ i c, (callback_redeem_account db uid).1 = .redeemed i c) := by
  constructor
  · intro u h hge hnone
    simp only [callback_redeem_account, h]
    rw [if_neg hge, hnone]
  · rcases hfu : findUser db uid with _ | u
    · left
      simp [callback_redeem_account, hfu]
    · by_cases hlt : u.points < (if u.vip then (10 : Int) else 15)
      · left
        simp [callback_redeem_account, hfu, hlt]
      · rcases hga : get_account db u.vip with _ | ⟨aid, info⟩
        · left
          simp [callback_redeem_account, hfu, hlt, hga]
        · by_cases hz : aid = 0 ∨ info = ""
          · left
            simp [callback_redeem_account, hfu, hlt, hga, hz]
          · right
            exact ⟨info, (if u.vip then 10 else 15),
              by simp [callback_redeem_account, hfu, hlt, hga, hz]⟩

/-- Witness for C4: a funded non-VIP user facing an empty pool gets the
out-of-stock outcome and the database is unchanged. -/
theorem redeem_out_of_stock_no_debit_witness :
    callback_redeem_account dbC4 1 = (.outOfStock, dbC4) := by
  have := (redeem_out_of_stock_no_debit dbC4 1).1
    { user_id := 1, username := "u", points := 20, vip := false, referrals := 0, last_daily := none, ref_by := none }
    (by decide) (by decide) (by decide)
  simpa using this

/-! ### Claim C6 -/

/-- Claim C6: `get_account` returns an item of the requested tier when one
exists (premium for a VIP request, standard for a standard request), falls
back to any pool row otherwise, and returns the no-item answer — not an
error — exactly when the pool is empty. -/
theorem allocate_tier_preference_and_fallback (db : DB) (v : Bool) :
    (get_account db v = none ↔ db.igv_accounts = []) ∧
    ∀ a i, get_account db v = some (a, i) →
      (∃ row ∈ db.igv_accounts, row.id = a ∧ row.account_info = i) ∧
      ((∃ r ∈ db.igv_accounts, r.type = (if v then "premium" else "standard")) →
        ∃ row ∈ db.igv_accounts, row.id = a ∧ row.account_info = i ∧
          row.type = (if v then "premium" else "standard")) := by
  refine ⟨get_account_eq_none_iff db v, ?_⟩
  intro a i h
  refine ⟨get_account_mem db v a i h, ?_⟩
  rintro ⟨r0, hmem, htype⟩
  obtain ⟨row, hrmem, hga, hrt⟩ := get_account_pref db v r0 hmem htype
  obtain ⟨hid, hinfo⟩ : row.id = a ∧ row.account_info = i := by
    have := hga.symm.trans h
    simpa using this
  exact ⟨row, hrmem, hid, hinfo, hrt⟩

/-- Witness for C6 (the spec fallback scenario): with one premium item and
no standard item, a standard request is served from the pool — the premium
row — rather than failing. -/
theorem allocate_tier_preference_and_fallback_witness :
    ∃ row ∈ dbC6.igv_accounts, row.id = 1 ∧ row.account_info = "p" :=
  ((allocate_tier_preference_and_fallback dbC6 false).2 1 "p" (by decide)).1

/-! ### Claim C5 -/

/-- Counterexample for C5: `get_account` (the allocate step, models.py
lines 178–202) runs only SELECT statements — its embedded type
`DB → Bool → Option (Nat × String)` returns no new state — so after it
returns item 1 the pool still contains item 1, and running allocate again
on that unchanged state returns the very same item.  The removal is a
separate `remove_account` call issued later by the redeem callback, not
part of the operation that returns the item. -/
theorem allocate_does_not_remove_counterexample :
    get_account dbC5 false = some (1, "acct") ∧
    dbC5.igv_accounts.any (fun r => r.id == 1) = true := by
  decide

/-- Claim C5 as amended: allocation alone does not remove the item; it is
the redeem flow that, after a successful allocation, deletes the allocated
row with a separate `remove_account` step before finishing, so after a
completed redeem no row with the allocated identifier survives and a
subsequent allocate can never return that item again. -/
theorem redeem_removes_allocated_item (db : DB) (uid : Nat) (u : UserRow)
    (aid : Nat) (info : String)
    (h : findUser db uid = some u)
    (hge : ¬ u.points < (if u.vip then (10 : Int) else 15))
    (hga : get_account db u.vip = some (aid, info))
    (hz : ¬ (aid = 0 ∨ info = "")) :
    (∀ row ∈ (callback_redeem_account db uid).2.igv_accounts, row.id ≠ aid) ∧
    ∀ v a2 i2, get_account (callback_redeem_account db uid).2 v = some (a2, i2) →
      a2 ≠ aid := by
  have hred : (callback_redeem_account db uid).2.igv_accounts
      = db.igv_accounts.filter (fun r => !(r.id == aid)) := by
    simp only [callback_redeem_account, h, hga]
    rw [if_neg hge]
    simp only [hz, if_false, ite_false]
    rfl
  constructor
  · intro row hrow
    rw [hred] at hrow
    have := List.of_mem_filter hrow
    simpa using this
  · intro v a2 i2 hga2 hEq
    obtain ⟨row, hmem, hid, _⟩ := get_account_mem _ v a2 i2 hga2
    rw [hred] at hmem
    have := List.of_mem_filter hmem
    simp [hid, hEq] at this

/-- Witness for C5: redeeming from a pool holding items 2 and 3 allocates
and removes item 2; the next allocation returns item 3, not item 2. -/
theorem redeem_removes_allocated_item_witness :
    (3 : Nat) ≠ 2 ∧
    get_account (callback_redeem_account dbC5w 1).2 false = some (3, "t") := by
  have hthm := redeem_removes_allocated_item dbC5w 1
    { user_id := 1, username := "u", points := 20, vip := false, referrals := 0, last_daily := none, ref_by := none }
    2 "s" (by decide) (by decide) (by decide) (by decide)
  have hga : get_account (callback_redeem_account dbC5w 1).2 false = some (3, "t") := by
    decide
  exact ⟨hthm.2 false 3 "t" hga, hga⟩

/-! ### Claim C7 -/

/-- Counterexample for C7: `claim_daily_reward` itself performs no
eligibility re-check — models.py lines 98–122 only read the VIP flag and
then credit unconditionally.  Called twice 10 seconds apart on the same
user, the second call also succeeds and credits, leaving 4 points from two
+2 credits. -/
theorem claim_daily_reward_double_credit_counterexample :
    (claim_daily_reward (claim_daily_reward dbC7 1 0).2 1 10).1 = some (true, 2) ∧
    userPoints (claim_daily_reward (claim_daily_reward dbC7 1 0).2 1 10).2 1 = some 4 := by
  decide

/-- The daily callback on an eligible existing user claims the reward. -/
lemma callback_daily_eligible (db : DB) (uid : Nat) (t : Int) (u : UserRow)
    (h : findUser db uid = some u) (helig : can_claim_daily db uid t = true) :
    callback_daily_reward db uid t =
      (.claimed (if u.vip then 4 else 2), (claim_daily_reward db uid t).2) := by
  simp only [callback_daily_reward, helig, claim_daily_reward, h]
  rfl

/-- Claim C7 as amended: the eligibility re-check lives in the calling flow
(`callback_daily_reward` consults `can_claim_daily`), not in
`claim_daily_reward` itself; running the full daily-claim flow twice within
24 hours credits exactly once — the second run is blocked and changes
nothing — while running it again once at least 24 hours (86400 s) have
elapsed credits again. -/
theorem daily_flow_credits_once_per_24h (db : DB) (uid : Nat) (u : UserRow)
    (t1 t2 : Int)
    (h : findUser db uid = some u)
    (helig : can_claim_daily db uid t1 = true) :
    (callback_daily_reward db uid t1).1 = .claimed (if u.vip then 4 else 2) ∧
    userPoints (callback_daily_reward db uid t1).2 uid =
      some (u.points + (if u.vip then 4 else 2)) ∧
    (t2 - t1 < 86400 →
      callback_daily_reward (callback_daily_reward db uid t1).2 uid t2 =
        (.blocked, (callback_daily_reward db uid t1).2)) ∧
    (86400 ≤ t2 - t1 →
      (callback_daily_reward (callback_daily_reward db uid t1).2 uid t2).1 =
        .claimed (if u.vip then 4 else 2) ∧
      userPoints (callback_daily_reward (callback_daily_reward db uid t1).2 uid t2).2 uid =
        some (u.points + (if u.vip then 4 else 2) + (if u.vip then 4 else 2))) := by
  have hcb1 := callback_daily_eligible db uid t1 u h helig
  have hu1 : findUser (callback_daily_reward db uid t1).2 uid =
      some { u with points := u.points + (if u.vip then 4 else 2), last_daily := some t1 } := by
    rw [hcb1]
    exact findUser_claim_daily_reward db uid t1 u h
  have hcan2 : can_claim_daily (callback_daily_reward db uid t1).2 uid t2 =
      decide (86400 ≤ t2 - t1) := by
    simp only [can_claim_daily, hu1]
  refine ⟨by rw [hcb1], by simp [userPoints, hu1], ?_, ?_⟩
  · intro hlt
    have hfalse : can_claim_daily (callback_daily_reward db uid t1).2 uid t2 = false := by
      rw [hcan2]
      simpa using by omega
    generalize hX : (callback_daily_reward db uid t1).2 = X at hfalse ⊢
    simp only [callback_daily_reward, hfalse]
    exact if_pos trivial
  · intro hge
    have htrue : can_claim_daily (callback_daily_reward db uid t1).2 uid t2 = true := by
      rw [hcan2]
      simpa using hge
    have hcb2 := callback_daily_eligible (callback_daily_reward db uid t1).2 uid t2
      { u with points := u.points + (if u.vip then 4 else 2), last_daily := some t1 }
      hu1 htrue
    have hu2 := findUser_claim_daily_reward (callback_daily_reward db uid t1).2 uid t2
      { u with points := u.points + (if u.vip then 4 else 2), last_daily := some t1 } hu1
    constructor
    · rw [hcb2]
    · rw [hcb2]
      simp [userPoints, hu2]

/-- Witness for C7: the non-VIP user claims +2 at time 0 and is blocked 10
seconds later, keeping exactly 2 points. -/
theorem daily_flow_credits_once_per_24h_witness :
    callback_daily_reward (callback_daily_reward dbC7 1 0).2 1 10 =
      (.blocked, (callback_daily_reward dbC7 1 0).2) := by
  have := (daily_flow_credits_once_per_24h dbC7 1
    { user_id := 1, username := "u", points := 0, vip := false, referrals := 0, last_daily := none, ref_by := none }
    0 10 (by decide) (by decide)).2.2.1 (by decide)
  exact this

/-! ### Claim C9 -/

/-- Counterexample for C9: `create_user` guards the referral bonus with the
Python truthiness test `if ref_by and ref_by != user_id`, so a referrer
identifier of 0 — present and different from the new account — is treated
as absent: the signup succeeds but the existing user 0 keeps 5 referrals
and 7 points, with no increment and no +3 credit. -/
theorem referral_zero_id_skipped_counterexample :
    (create_user dbC9 5 "x" (some 0)).1 = true ∧
    findUser (create_user dbC9 5 "x" (some 0)).2 0 =
      some { user_id := 0, username := "z", points := 7, vip := false, referrals := 5, last_daily := none, ref_by := none } := by
  decide

/-- Claim C9 as amended: creating a fresh account with a referrer
identifier that is present, nonzero, and not the new account itself
increments the referral count of the (existing) referrer by exactly 1,
credits the referrer exactly +3 points and applies the VIP promotion check
of `add_referral`; with the referrer identifier absent, zero, or equal to
the new account, the user table only gains the fresh row and every
pre-existing row — in particular any referrer state — is unchanged. -/
theorem referral_credits_referrer (db : DB) (uid : Nat) (uname : String)
    (r : Nat) (refu : UserRow)
    (hnew : db.igv_users.any (fun u => u.user_id == uid) = false)
    (hr0 : r ≠ 0) (hrself : r ≠ uid)
    (href : findUser db r = some refu) :
    (create_user db uid uname (some r)).1 = true ∧
    findUser (create_user db uid uname (some r)).2 r =
      some { refu with referrals := refu.referrals + 1, points := refu.points + 3, vip := refu.vip || decide (20 ≤ refu.referrals + 2) } ∧
    (create_user db uid uname none).2.igv_users =
      db.igv_users ++ [{ user_id := uid, username := uname, points := 0, vip := false, referrals := 0, last_daily := none, ref_by := none }] ∧
    (create_user db uid uname (some uid)).2.igv_users =
      db.igv_users ++ [{ user_id := uid, username := uname, points := 0, vip := false, referrals := 0, last_daily := none, ref_by := some uid }] ∧
    (create_user db uid uname (some 0)).2.igv_users =
      db.igv_users ++ [{ user_id := uid, username := uname, points := 0, vip := false, referrals := 0, last_daily := none, ref_by := some 0 }] := by
  have href1 : findUser { db with igv_users := db.igv_users ++ [{ user_id := uid, username := uname, points := 0, vip := false, referrals := 0, last_daily := none, ref_by := some r }] } r = some refu :=
    find?_append_some _ href
  refine ⟨?_, ?_, ?_, ?_, ?_⟩
  · simp only [create_user]
    rw [hnew, if_neg (show ¬(false = true) by simp),
      if_pos (show r ≠ 0 ∧ r ≠ uid from ⟨hr0, hrself⟩)]
  · simp only [create_user]
    rw [hnew, if_neg (show ¬(false = true) by simp),
      if_pos (show r ≠ 0 ∧ r ≠ uid from ⟨hr0, hrself⟩)]
    exact findUser_add_referral _ r refu href1
  · simp only [create_user]
    rw [hnew, if_neg (show ¬(false = true) by simp)]
  · simp only [create_user]
    rw [hnew, if_neg (show ¬(false = true) by simp),
      if_neg (show ¬(uid ≠ 0 ∧ uid ≠ uid) by simp)]
  · simp only [create_user]
    rw [hnew, if_neg (show ¬(false = true) by simp),
      if_neg (show ¬((0 : Nat) ≠ 0 ∧ (0 : Nat) ≠ uid) by simp)]

/-- Witness for C9: user 5 signs up referred by user 3, who goes from 0
referrals and 0 points to 1 referral and 3 points, still non-VIP. -/
theorem referral_credits_referrer_witness :
    findUser (create_user dbC9w 5 "n" (some 3)).2 3 =
      some { user_id := 3, username := "r", points := 3, vip := false, referrals := 1, last_daily := none, ref_by := none } := by
  have := (referral_credits_referrer dbC9w 5 "n" 3
    { user_id := 3, username := "r", points := 0, vip := false, referrals := 0, last_daily := none, ref_by := none }
    (by decide) (by decide) (by decide) (by decide)).2.1
  exact this.trans (by decide)

end InstaVault
